import Mathlib

/-!
Verification development for the ROR STAY frontend (property-rental listing app).

The definitions below are shallow embeddings of the JavaScript/JSX source:
* the public listings page (`Listings` component): client-side filter pipeline
  `filteredListings`, filter-option catalog construction, the per-listing
  contact modal `submitContact` with its `isValidPhone` validator and
  local-storage rate limiter;
* the admin components `AdminNewListing` and `AdminListings`: UI-to-backend
  enum mapping (`mapPropertyTypeToBackend`, `mapStatusToBackend`,
  `bedroomsFromSize`), image staging (`handleImageSelect`) and the
  create/update submit flows with their separate multipart image upload.

JavaScript strings are modelled as Lean `String`; the JS string methods used
by the source (`trim`, `toLowerCase`, `startsWith`, `includes`, `replace(/\D/g,'')`)
are re-implemented structurally over `List Char` so that all predicates are
executable and kernel-reducible.
-/

/-- Whitespace test used for JS `trim` / regex `\s` (ASCII subset). -/
def jsWs (c : Char) : Bool := c.isWhitespace

/-- JS `String.prototype.trim` on the underlying character list. -/
def jsTrimData (l : List Char) : List Char :=
  ((l.dropWhile jsWs).reverse.dropWhile jsWs).reverse

/-- JS `String.prototype.trim`. -/
def jsTrim (s : String) : String := ⟨jsTrimData s.data⟩

/-- JS `String.prototype.toLowerCase` (ASCII; all strings in play are ASCII). -/
def jsLower (s : String) : String := ⟨s.data.map Char.toLower⟩

/-- Substring test: `containsSub needle hay = true` iff `needle` occurs
contiguously in `hay` (JS `hay.includes(needle)`). -/
def containsSub (needle : List Char) : List Char → Bool
  | [] => needle.isEmpty
  | c :: t => needle.isPrefixOf (c :: t) || containsSub needle t

/-- JS `s.includes(sub)`. -/
def jsIncludes (s sub : String) : Bool := containsSub sub.data s.data

/-- JS `s.startsWith(p)`. -/
def jsStartsWith (s p : String) : Bool := p.data.isPrefixOf s.data

/-- Everything after the first `':'`; equals the JS idiom
`f.split(':').slice(1).join(':')` (empty when there is no colon). -/
def afterFirstColon : List Char → List Char
  | [] => []
  | c :: t => if c = ':' then t else afterFirstColon t

/-- Lexicographic order on character lists by code point; this is the
comparison JS's default `Array.prototype.sort` applies to strings. -/
def charListLe : List Char → List Char → Bool
  | [], _ => true
  | _ :: _, [] => false
  | a :: as, b :: bs =>
    if a < b then true else if b < a then false else charListLe as bs

/-- First-occurrence deduplication, as `Array.from(new Set(xs))` (a JS `Set`
iterates in insertion order). -/
def dedupKeepFirst (l : List String) : List String :=
  l.foldl (fun acc s => if s ∈ acc then acc else acc ++ [s]) []

/-- JS `xs.sort()` on strings. -/
def sortStrings (l : List String) : List String :=
  List.insertionSort (fun a b => charListLe a.data b.data) l

/-- `Array.from(new Set(xs)).sort()`. -/
def jsSetSort (l : List String) : List String := sortStrings (dedupKeepFirst l)

/-! ## Data model (Property records as consumed by the Listings component) -/

structure Address where
  street : String
  city : String
  state : String
  zip_code : String
  country : String
deriving DecidableEq

structure Property where
  id : String
  title : String
  description : String
  price : Int
  property_type : String
  status : String
  features : List String
  address : Address
  images : List String
deriving DecidableEq

/-- The filter state of the `Listings` component (all single-select strings,
empty string = facet not selected). -/
structure Filters where
  location : String
  nearby : String
  priceRange : String
  roomType : String
  restrictions : String
deriving DecidableEq

/-! ## Client-side filter pipeline (`filteredListings` in `Listings`) -/

/-- The price-bucket lookup table from `filteredListings` (the `map` object):
returns the predicate for a recognised bucket label, else `none`
(an unrecognised non-empty `priceRange` leaves the list unfiltered). -/
def priceBucketPred (r : String) : Option (Int → Bool) :=
  if r = "Under ₹10,000" then some (fun price => decide (price < 10000))
  else if r = "₹10,000 - ₹20,000" then
    some (fun price => decide (price ≥ 10000) && decide (price ≤ 20000))
  else if r = "₹20,000 - ₹30,000" then
    some (fun price => decide (price ≥ 20000) && decide (price ≤ 30000))
  else if r = "₹30,000 - ₹50,000" then
    some (fun price => decide (price ≥ 30000) && decide (price ≤ 50000))
  else if r = "₹50,000 - ₹75,000" then
    some (fun price => decide (price ≥ 50000) && decide (price ≤ 75000))
  else if r = "Above ₹75,000" then some (fun price => decide (price > 75000))
  else none

/-- Whether a price passes the bucket named `r` (`true` when the bucket is
unrecognised, mirroring `if (priceFilter)` skipping the filter). -/
def pricePasses (r : String) (x : Int) : Bool :=
  match priceBucketPred r with
  | some pf => pf x
  | none => true

def applyPriceFilter (fs : Filters) (arr : List Property) : List Property :=
  if fs.priceRange = "" then arr
  else
    match priceBucketPred fs.priceRange with
    | some pf => arr.filter fun it => pf it.price
    | none => arr

/-- The room-type predicate body (argument `rt` is the trimmed, lowercased
filter value). -/
def roomTypePredB (rt : String) (it : Property) : Bool :=
  let pt := jsLower it.property_type
  if rt = "apartment" then pt = "apartment"
  else if rt = "house" then pt = "house"
  else if rt = "condo" then pt = "condo"
  else false

def applyRoomTypeFilter (fs : Filters) (arr : List Property) : List Property :=
  if jsTrim fs.roomType = "" then arr
  else arr.filter (roomTypePredB (jsLower (jsTrim fs.roomType)))

/-- Location predicate body (`loc` is the trimmed, lowercased filter value):
substring match against the lowercased city. -/
def locationPredB (loc : String) (it : Property) : Bool :=
  jsIncludes (jsLower it.address.city) loc

def applyLocationFilter (fs : Filters) (arr : List Property) : List Property :=
  if jsTrim fs.location = "" then arr
  else arr.filter (locationPredB (jsLower (jsTrim fs.location)))

/-- Restrictions predicate body: some feature equals the filter value
case-insensitively. -/
def restrictionsPredB (r : String) (it : Property) : Bool :=
  it.features.any fun f => jsLower f = r

def applyRestrictionsFilter (fs : Filters) (arr : List Property) : List Property :=
  if jsTrim fs.restrictions = "" then arr
  else arr.filter (restrictionsPredB (jsLower (jsTrim fs.restrictions)))

/-- Nearby predicate body: some feature, lowercased, starts with `"nearby:"`
and (as a whole string) contains the lowercased trimmed filter value. -/
def nearbyPredB (nb : String) (it : Property) : Bool :=
  it.features.any fun f =>
    let s := jsLower f
    jsStartsWith s "nearby:" && jsIncludes s nb

def applyNearbyFilter (fs : Filters) (arr : List Property) : List Property :=
  if jsTrim fs.nearby = "" then arr
  else arr.filter (nearbyPredB (jsLower (jsTrim fs.nearby)))

/-- The `filteredListings` memo: the five facet filters applied in source
order (price, room type, location, restrictions, nearby). -/
def filteredListings (fs : Filters) (listings : List Property) : List Property :=
  applyNearbyFilter fs
    (applyRestrictionsFilter fs
      (applyLocationFilter fs
        (applyRoomTypeFilter fs
          (applyPriceFilter fs listings))))

/-! Per-facet satisfaction predicates (facet value passed as raw string;
an empty/blank facet imposes no constraint, exactly as the guarding `if`s). -/

def priceFacetOk (r : String) (it : Property) : Bool :=
  if r = "" then true else pricePasses r it.price

def roomTypeFacetOk (r : String) (it : Property) : Bool :=
  if jsTrim r = "" then true else roomTypePredB (jsLower (jsTrim r)) it

def locationFacetOk (r : String) (it : Property) : Bool :=
  if jsTrim r = "" then true else locationPredB (jsLower (jsTrim r)) it

def restrictionsFacetOk (r : String) (it : Property) : Bool :=
  if jsTrim r = "" then true else restrictionsPredB (jsLower (jsTrim r)) it

def nearbyFacetOk (r : String) (it : Property) : Bool :=
  if jsTrim r = "" then true else nearbyPredB (jsLower (jsTrim r)) it

/-- A property satisfies every non-empty facet's predicate. -/
def matchesAllFacets (fs : Filters) (it : Property) : Bool :=
  priceFacetOk fs.priceRange it && roomTypeFacetOk fs.roomType it &&
    locationFacetOk fs.location it && restrictionsFacetOk fs.restrictions it &&
    nearbyFacetOk fs.nearby it

/-- `ext` keeps every facet of `base` (same value) and may activate more:
each facet of `base` is either empty or carried over unchanged. -/
def FiltersExtends (base ext : Filters) : Prop :=
  (base.location = "" ∨ ext.location = base.location) ∧
  (base.nearby = "" ∨ ext.nearby = base.nearby) ∧
  (base.priceRange = "" ∨ ext.priceRange = base.priceRange) ∧
  (base.roomType = "" ∨ ext.roomType = base.roomType) ∧
  (base.restrictions = "" ∨ ext.restrictions = base.restrictions)

instance (base ext : Filters) : Decidable (FiltersExtends base ext) := by
  unfold FiltersExtends
  exact inferInstance

theorem mem_applyPriceFilter {fs : Filters} {ls : List Property} {p : Property} :
    p ∈ applyPriceFilter fs ls ↔ p ∈ ls ∧ priceFacetOk fs.priceRange p = true := by
  unfold applyPriceFilter priceFacetOk pricePasses
  by_cases h : fs.priceRange = ""
  · simp [h]
  · simp only [h, if_false, if_neg h]
    cases hb : priceBucketPred fs.priceRange with
    | none => simp
    | some pf => simp [List.mem_filter]

theorem mem_applyRoomTypeFilter {fs : Filters} {ls : List Property} {p : Property} :
    p ∈ applyRoomTypeFilter fs ls ↔ p ∈ ls ∧ roomTypeFacetOk fs.roomType p = true := by
  unfold applyRoomTypeFilter roomTypeFacetOk
  by_cases h : jsTrim fs.roomType = ""
  · simp [h]
  · simp [h, List.mem_filter]

theorem mem_applyLocationFilter {fs : Filters} {ls : List Property} {p : Property} :
    p ∈ applyLocationFilter fs ls ↔ p ∈ ls ∧ locationFacetOk fs.location p = true := by
  unfold applyLocationFilter locationFacetOk
  by_cases h : jsTrim fs.location = ""
  · simp [h]
  · simp [h, List.mem_filter]

theorem mem_applyRestrictionsFilter {fs : Filters} {ls : List Property} {p : Property} :
    p ∈ applyRestrictionsFilter fs ls ↔
      p ∈ ls ∧ restrictionsFacetOk fs.restrictions p = true := by
  unfold applyRestrictionsFilter restrictionsFacetOk
  by_cases h : jsTrim fs.restrictions = ""
  · simp [h]
  · simp [h, List.mem_filter]

theorem mem_applyNearbyFilter {fs : Filters} {ls : List Property} {p : Property} :
    p ∈ applyNearbyFilter fs ls ↔ p ∈ ls ∧ nearbyFacetOk fs.nearby p = true := by
  unfold applyNearbyFilter nearbyFacetOk
  by_cases h : jsTrim fs.nearby = ""
  · simp [h]
  · simp [h, List.mem_filter]

theorem mem_filteredListings {fs : Filters} {ls : List Property} {p : Property} :
    p ∈ filteredListings fs ls ↔ p ∈ ls ∧ matchesAllFacets fs p = true := by
  unfold filteredListings matchesAllFacets
  rw [mem_applyNearbyFilter, mem_applyRestrictionsFilter, mem_applyLocationFilter,
    mem_applyRoomTypeFilter, mem_applyPriceFilter]
  simp [Bool.and_eq_true]
  tauto

theorem matchesAllFacets_of_extends {base ext : Filters} {p : Property}
    (h : FiltersExtends base ext) (hm : matchesAllFacets ext p = true) :
    matchesAllFacets base p = true := by
  obtain ⟨h1, h2, h3, h4, h5⟩ := h
  unfold matchesAllFacets at hm ⊢
  simp only [Bool.and_eq_true] at hm ⊢
  obtain ⟨⟨⟨⟨hp, hr⟩, hl⟩, hs⟩, hn⟩ := hm
  refine ⟨⟨⟨⟨?_, ?_⟩, ?_⟩, ?_⟩, ?_⟩
  · rcases h3 with h3 | h3
    · simp [priceFacetOk, h3]
    · rwa [h3] at hp
  · rcases h4 with h4 | h4
    · simp [roomTypeFacetOk, h4, jsTrim, jsTrimData, jsWs]
    · rwa [h4] at hr
  · rcases h1 with h1 | h1
    · simp [locationFacetOk, h1, jsTrim, jsTrimData, jsWs]
    · rwa [h1] at hl
  · rcases h5 with h5 | h5
    · simp [restrictionsFacetOk, h5, jsTrim, jsTrimData, jsWs]
    · rwa [h5] at hs
  · rcases h2 with h2 | h2
    · simp [nearbyFacetOk, h2, jsTrim, jsTrimData, jsWs]
    · rwa [h2] at hn

/-! ## Sample data used by witnesses and counterexamples -/

def addrJaipur : Address :=
  ⟨"12 A Road", "Jaipur", "Rajasthan", "302017", "India"⟩

def propCheap : Property :=
  ⟨"p1", "Cozy PG", "desc", 8000, "apartment", "available",
    ["Only Boys", "Nearby: Metro"], addrJaipur, []⟩

def propHouse : Property :=
  ⟨"p2", "Family House", "desc", 9000, "house", "available",
    ["Family"], addrJaipur, []⟩

def propMetro : Property :=
  ⟨"p3", "Near Metro Flat", "desc", 12000, "apartment", "available",
    ["Nearby: Metro"], addrJaipur, []⟩

def fsPriceOnly : Filters := ⟨"", "", "Under ₹10,000", "", ""⟩

def fsPriceAndType : Filters := ⟨"", "", "Under ₹10,000", "Apartment", ""⟩

def fsNear : Filters := ⟨"", "near", "", "", ""⟩

/-- C1: `filteredListings` is exactly the sublist of properties satisfying
every non-empty facet's predicate simultaneously (AND across facets; empty
facets impose no constraint), and extending the active facet set never adds
a property to the result. -/
theorem filteredListings_and_intersection :
    (∀ (fs : Filters) (ls : List Property) (p : Property),
        p ∈ filteredListings fs ls ↔ p ∈ ls ∧ matchesAllFacets fs p = true) ∧
    (∀ (base ext : Filters) (ls : List Property) (p : Property),
        FiltersExtends base ext →
          p ∈ filteredListings ext ls → p ∈ filteredListings base ls) := by
  constructor
  · intro fs ls p
    exact mem_filteredListings
  · intro base ext ls p hx hp
    rw [mem_filteredListings] at hp ⊢
    exact ⟨hp.1, matchesAllFacets_of_extends hx hp.2⟩

/-- Witness for C1 at a concrete two-facet combination: the price+roomType
result is contained in the price-only result (and is a strict subset of it
on this dataset). -/
theorem filteredListings_and_intersection_witness :
    FiltersExtends fsPriceOnly fsPriceAndType ∧
      propCheap ∈ filteredListings fsPriceOnly [propCheap, propHouse] :=
  ⟨by decide,
    filteredListings_and_intersection.2 fsPriceOnly fsPriceAndType
      [propCheap, propHouse] propCheap (by decide) (by decide)⟩

/-- C2: the six price buckets of the client-side price filter pass a numeric
price exactly on the stated intervals (inclusive boundaries on both ends of
the four middle buckets; strict open-ended top and bottom buckets). -/
theorem price_bucket_intervals : ∀ x : Int,
    (pricePasses "Under ₹10,000" x = true ↔ x < 10000) ∧
    (pricePasses "₹10,000 - ₹20,000" x = true ↔ 10000 ≤ x ∧ x ≤ 20000) ∧
    (pricePasses "₹20,000 - ₹30,000" x = true ↔ 20000 ≤ x ∧ x ≤ 30000) ∧
    (pricePasses "₹30,000 - ₹50,000" x = true ↔ 30000 ≤ x ∧ x ≤ 50000) ∧
    (pricePasses "₹50,000 - ₹75,000" x = true ↔ 50000 ≤ x ∧ x ≤ 75000) ∧
    (pricePasses "Above ₹75,000" x = true ↔ 75000 < x) := by
  intro x
  refine ⟨?_, ?_, ?_, ?_, ?_, ?_⟩
  · rw [show pricePasses "Under ₹10,000" x = decide (x < 10000) from rfl]
    exact decide_eq_true_iff
  · rw [show pricePasses "₹10,000 - ₹20,000" x
        = (decide (x ≥ 10000) && decide (x ≤ 20000)) from rfl]
    simp [Bool.and_eq_true, decide_eq_true_iff, ge_iff_le]
  · rw [show pricePasses "₹20,000 - ₹30,000" x
        = (decide (x ≥ 20000) && decide (x ≤ 30000)) from rfl]
    simp [Bool.and_eq_true, decide_eq_true_iff, ge_iff_le]
  · rw [show pricePasses "₹30,000 - ₹50,000" x
        = (decide (x ≥ 30000) && decide (x ≤ 50000)) from rfl]
    simp [Bool.and_eq_true, decide_eq_true_iff, ge_iff_le]
  · rw [show pricePasses "₹50,000 - ₹75,000" x
        = (decide (x ≥ 50000) && decide (x ≤ 75000)) from rfl]
    simp [Bool.and_eq_true, decide_eq_true_iff, ge_iff_le]
  · rw [show pricePasses "Above ₹75,000" x = decide (x > 75000) from rfl]
    exact decide_eq_true_iff

/-! ## C9: the nearby facet predicate -/

/-- Modelled from the claim's wording (not from the source), for comparison
with the code's predicate: some feature entry has the prefix `"Nearby:"` and
the remainder of the entry after that prefix, trimmed, contains the filter
value case-insensitively. -/
def nearbySpecPred (v : String) (it : Property) : Bool :=
  it.features.any fun f =>
    jsStartsWith f "Nearby:" &&
      jsIncludes (jsLower (jsTrim ⟨f.data.drop 7⟩)) (jsLower (jsTrim v))

/-- C9 counterexample: with filter value `"near"` and the single feature
`"Nearby: Metro"`, the code's nearby facet matches the property (the whole
lowercased entry `"nearby: metro"` contains `"near"`), but the claim's
predicate does not (the trimmed remainder `"Metro"` does not contain
`"near"`), so the claimed if-and-only-if fails. -/
theorem nearby_remainder_claim_false :
    filteredListings fsNear [propMetro] = [propMetro] ∧
      nearbySpecPred "near" propMetro = false := by decide

/-- C9 (amended): when the nearby filter is non-empty (after trimming), a
property is in the nearby-filtered result iff some entry of its features
list, lowercased, starts with `"nearby:"` and the entire lowercased entry
(prefix included, not just the remainder) contains the lowercased trimmed
filter value. -/
theorem nearby_facet_whole_string :
    ∀ (nb : String) (ls : List Property) (p : Property),
      jsTrim nb ≠ "" →
      (p ∈ filteredListings ⟨"", nb, "", "", ""⟩ ls ↔
        p ∈ ls ∧ ∃ f ∈ p.features,
          jsStartsWith (jsLower f) "nearby:" = true ∧
            jsIncludes (jsLower f) (jsLower (jsTrim nb)) = true) := by
  intro nb ls p h
  rw [mem_filteredListings]
  have hall : matchesAllFacets ⟨"", nb, "", "", ""⟩ p = nearbyFacetOk nb p := by
    unfold matchesAllFacets
    simp [priceFacetOk, roomTypeFacetOk, locationFacetOk, restrictionsFacetOk,
      show jsTrim "" = "" from rfl]
  rw [hall]
  unfold nearbyFacetOk
  rw [if_neg h]
  unfold nearbyPredB
  simp only [List.any_eq_true, Bool.and_eq_true]

/-- Witness for C9 (amended) at the concrete filter value `"metro"` and the
feature `"Nearby: Metro"`. -/
theorem nearby_facet_whole_string_witness :
    propMetro ∈ filteredListings ⟨"", "metro", "", "", ""⟩ [propMetro] :=
  (nearby_facet_whole_string "metro" [propMetro] propMetro (by decide)).mpr
    ⟨by decide, "Nearby: Metro", by decide, by decide, by decide⟩

/-! ## C4: the contact-modal phone validator (`isValidPhone`) -/

/-- `isValidPhone` from the Listings contact modal: strip all non-digit
characters (`replace(/\D/g, '')`) and require exactly 10 remaining digits. -/
def isValidPhone (val : String) : Bool :=
  (val.data.filter Char.isDigit).length = 10

/-- C4 counterexample: the claim asserts `"+91-9876543210"` is accepted, but
stripping non-digits leaves the 12 digits `"919876543210"`, so `isValidPhone`
rejects it. -/
theorem phone_plus91_rejected : isValidPhone "+91-9876543210" = false := by
  decide

/-- C4 (amended): a phone string is accepted iff stripping all non-digit
characters leaves exactly 10 digits; `"987654321"` (9 digits) is rejected,
`"9876543210"` (10 digits) is accepted, and `"+91-9876543210"` (12 digits
after stripping) is rejected. -/
theorem isValidPhone_exactly_ten_digits :
    (∀ s : String,
        isValidPhone s = true ↔ (s.data.filter Char.isDigit).length = 10) ∧
      isValidPhone "987654321" = false ∧
      isValidPhone "9876543210" = true ∧
      isValidPhone "+91-9876543210" = false := by
  refine ⟨fun s => ?_, by decide, by decide, by decide⟩
  unfold isValidPhone
  exact decide_eq_true_iff

/-! ## C3: admin New Listing vocabulary mapping (`AdminNewListing`) -/

/-- `mapPropertyTypeToBackend`: UI property type to backend enum
(safe default `"apartment"`). -/
def mapPropertyTypeToBackend (val : String) : String :=
  let v := jsLower val
  if v = "flat" ∨ v = "apartment" then "apartment"
  else if v = "condo" then "condo"
  else "apartment"

/-- `mapStatusToBackend`: UI status to backend enum (default `"available"`). -/
def mapStatusToBackend (val : String) : String :=
  let v := jsLower val
  if v = "available" then "available"
  else if v = "not available" then "off_market"
  else if v = "off_market" then "off_market"
  else "available"

/-- `bedroomsFromSize`: the regex `/^\s*(\d)\s*bhk\s*$/i` — optional leading
whitespace, a single digit, optional whitespace, `bhk` case-insensitively,
optional trailing whitespace; returns the digit's value on a match (the JS
function returns `''` on no match, modelled as `none`). -/
def bedroomsFromSize (size : String) : Option Nat :=
  match size.data.dropWhile jsWs with
  | c :: rest =>
    if c.isDigit then
      let r2 := rest.dropWhile jsWs
      if (r2.take 3).map Char.toLower = "bhk".data ∧
          (r2.drop 3).dropWhile jsWs = [] then
        some (c.toNat - 48)
      else none
    else none
  | [] => none

/-- Digit parse of a non-empty all-digit string; models JS `Number(...)` on
the values the numeric `bedrooms` input field produces. -/
def parseDigits : List Char → Option Nat
  | [] => none
  | l =>
    if l.all Char.isDigit then
      some (l.foldl (fun acc c => acc * 10 + (c.toNat - 48)) 0)
    else none

/-- The `bedrooms` field of the create payload:
`form.bedrooms ? Number(form.bedrooms) : (bedroomsFromSize(form.size_ui) || null)`.
An empty `bedrooms` string is falsy, so the size string is consulted; the JS
`|| null` maps the falsy result `0` (from `"0 BHK"`) to `null`. -/
def payloadBedrooms (bedroomsField size_ui : String) : Option Nat :=
  if bedroomsField ≠ "" then parseDigits bedroomsField.data
  else
    match bedroomsFromSize size_ui with
    | some n => if n = 0 then none else some n
    | none => none

/-- The enum-mapped fields of the create payload built by `submit` in
`AdminNewListing`. -/
structure CreatePayloadEnums where
  property_type : String
  status : String
  bedrooms : Option Nat
deriving DecidableEq

/-- Payload construction (enum-mapped fields) from the admin form fields. -/
def payloadEnums (property_type_ui status_ui bedroomsField size_ui : String) :
    CreatePayloadEnums :=
  ⟨mapPropertyTypeToBackend property_type_ui, mapStatusToBackend status_ui,
    payloadBedrooms bedroomsField size_ui⟩

/-- A one-digit size string `"N BHK"` (digit character `'1' + n`). -/
def bhkString (d : Char) : String := ⟨[d, ' ', 'B', 'H', 'K']⟩

/-- C3 counterexample: the claim's generalization "`'N BHK'` yields
`bedrooms = N` for a single digit `N`" fails at `N = 0`: the regex match
yields `0`, but the payload's `|| null` fallback coerces the falsy `0` to
`null`, so the submitted `bedrooms` is `null`, not `0`. -/
theorem payload_bedrooms_zero_bhk_null :
    bedroomsFromSize "0 BHK" = some 0 ∧ payloadBedrooms "" "0 BHK" = none := by
  decide

/-- C3 (amended): `'Flat'`/`'Apartment'` map to `property_type "apartment"`,
`'Not Available'` maps to `status "off_market"`, and with no explicit
bedrooms value, `'N BHK'` yields `bedrooms = N` for a single digit `N` from
1 to 9 (`'0 BHK'` yields `null` because the falsy `0` falls back to `null`). -/
theorem admin_vocab_mapping :
    payloadEnums "Flat" "Not Available" "" "2 BHK" =
      ⟨"apartment", "off_market", some 2⟩ ∧
    payloadEnums "Apartment" "Available" "" "" =
      ⟨"apartment", "available", none⟩ ∧
    mapStatusToBackend "Not Available" = "off_market" ∧
    (∀ n : Fin 9,
      payloadBedrooms "" (bhkString (Char.ofNat (49 + n.val))) =
        some (n.val + 1)) := by
  refine ⟨by decide, by decide, by decide, ?_⟩
  decide

/-! ## `submitContact` (Listings contact modal): rate limit and storage -/

/-- The listing a contact inquiry is about (fields read by `submitContact`). -/
structure ContactListing where
  id : String
  title : String
deriving DecidableEq

/-- The contact modal form fields (`website` is the honeypot). -/
structure ContactForm where
  name : String
  email : String
  phone : String
  message : String
  website : String
deriving DecidableEq

/-- Observable outcome of one `submitContact` call: the value of the
`contact_last_submit` storage key afterwards, whether the POST request was
issued, and the error/success messages set by the call. -/
structure SubmitResult where
  stored : Int
  requestSent : Bool
  contactError : String
  contactSuccess : String
deriving DecidableEq

/-- `Math.ceil(m / n)` for integer `m` and positive integer `n`. -/
def jsCeilDiv (m : Int) (n : Int) : Int := -((-m).fdiv n)

/-- The rate-limit window `RATE_LIMIT_MS` (60 s). -/
def RATE_LIMIT_MS : Int := 60000

/-- The part of `submitContact` after the rate-limit gate: field validation,
phone validation, honeypot check, then the POST (outcome `postOk`); the
storage key is written (with the current time `writeTime`) only after a
successful POST. `failMsg` abstracts the message extracted from a failed
response. -/
def submitValidateAndPost (form : ContactForm) (stored writeTime : Int)
    (postOk : Bool) (failMsg : String) : SubmitResult :=
  if jsTrim form.name = "" ∨ jsTrim form.email = "" ∨ jsTrim form.phone = ""
  then ⟨stored, false, "Please fill Name, Email and Contact No.", ""⟩
  else if isValidPhone (jsTrim form.phone) = false then
    ⟨stored, false, "Please enter a valid contact number (10-13 digits).", ""⟩
  else if jsTrim form.website ≠ "" then
    ⟨stored, false, "Submission blocked as spam.", ""⟩
  else if postOk then
    ⟨writeTime, true, "",
      "Thanks for showing the interest, we will reach out to you soon."⟩
  else ⟨stored, true, failMsg, ""⟩

/-- `submitContact`: early return when no listing is selected; then the
rate-limit gate (`now - last < RATE_LIMIT_MS` blocks with a remaining-seconds
message before any request); then validation and the POST. -/
def submitContact (listing : Option ContactListing) (form : ContactForm)
    (stored now writeTime : Int) (postOk : Bool) (failMsg : String) :
    SubmitResult :=
  match listing with
  | none => ⟨stored, false, "", ""⟩
  | some _ =>
    if now - stored < RATE_LIMIT_MS then
      ⟨stored, false,
        "Please wait " ++
          toString (jsCeilDiv (RATE_LIMIT_MS - (now - stored)) 1000) ++
          "s before submitting again.", ""⟩
    else submitValidateAndPost form stored writeTime postOk failMsg

/-- C7: with a non-negative elapsed time since the stored timestamp, a
submission strictly inside the 60 s window is blocked before any request,
with the message reporting the remaining whole seconds (ceiling of the
remaining milliseconds over 1000); once the full interval has elapsed, the
rate limiter does not block: the call behaves exactly as the gate-free
validation-and-post code. -/
theorem rate_limit_gate (l : ContactListing) (form : ContactForm)
    (stored now writeTime : Int) (postOk : Bool) (failMsg : String)
    (h0 : 0 ≤ now - stored) :
    (now - stored < 60000 →
      submitContact (some l) form stored now writeTime postOk failMsg =
        ⟨stored, false,
          "Please wait " ++
            toString (jsCeilDiv (60000 - (now - stored)) 1000) ++
            "s before submitting again.", ""⟩) ∧
    (60000 ≤ now - stored →
      submitContact (some l) form stored now writeTime postOk failMsg =
        submitValidateAndPost form stored writeTime postOk failMsg) := by
  constructor
  · intro h
    unfold submitContact RATE_LIMIT_MS
    rw [if_pos h]
  · intro h
    unfold submitContact RATE_LIMIT_MS
    rw [if_neg (by omega)]

/-- Witness for C7: 30 s into the window the submission is blocked with a
"wait 30s" message; at exactly 60 s it is not blocked. -/
theorem rate_limit_gate_witness :
    (submitContact (some ⟨"p1", "Cozy PG"⟩) ⟨"A", "a@b.c", "9876543210", "", ""⟩
        1000 31000 99 true "f" =
      ⟨1000, false,
        "Please wait " ++
          toString (jsCeilDiv (60000 - ((31000 : Int) - 1000)) 1000) ++
          "s before submitting again.", ""⟩) ∧
    (submitContact (some ⟨"p1", "Cozy PG"⟩) ⟨"A", "a@b.c", "9876543210", "", ""⟩
        1000 61000 99 true "f" =
      submitValidateAndPost ⟨"A", "a@b.c", "9876543210", "", ""⟩ 1000 99 true
        "f") :=
  ⟨(rate_limit_gate ⟨"p1", "Cozy PG"⟩ ⟨"A", "a@b.c", "9876543210", "", ""⟩
      1000 31000 99 true "f" (by decide)).1 (by decide),
    (rate_limit_gate ⟨"p1", "Cozy PG"⟩ ⟨"A", "a@b.c", "9876543210", "", ""⟩
      1000 61000 99 true "f" (by decide)).2 (by decide)⟩

/-- C10: the `contact_last_submit` timestamp is written only after a
successful POST: if a `submitContact` call changed the stored value, then the
request was actually sent and succeeded (so every early exit — no listing,
rate-limit block, missing fields, invalid phone, honeypot — and every failed
request leaves the stored timestamp unchanged). -/
theorem stored_timestamp_only_on_success (listing : Option ContactListing)
    (form : ContactForm) (stored now writeTime : Int) (postOk : Bool)
    (failMsg : String)
    (h : (submitContact listing form stored now writeTime postOk
            failMsg).stored ≠ stored) :
    (submitContact listing form stored now writeTime postOk
        failMsg).requestSent = true ∧
      postOk = true ∧
      (submitContact listing form stored now writeTime postOk
          failMsg).contactSuccess =
        "Thanks for showing the interest, we will reach out to you soon." := by
  unfold submitContact at h ⊢
  cases listing with
  | none => simp at h
  | some l =>
    by_cases hr : now - stored < RATE_LIMIT_MS
    · rw [if_pos hr] at h
      simp at h
    · rw [if_neg hr] at h ⊢
      unfold submitValidateAndPost at h ⊢
      by_cases h1 : jsTrim form.name = "" ∨ jsTrim form.email = "" ∨
          jsTrim form.phone = ""
      · rw [if_pos h1] at h
        simp at h
      · rw [if_neg h1] at h ⊢
        by_cases h2 : isValidPhone (jsTrim form.phone) = false
        · rw [if_pos h2] at h
          simp at h
        · rw [if_neg h2] at h ⊢
          by_cases h3 : jsTrim form.website ≠ ""
          · rw [if_pos h3] at h
            simp at h
          · rw [if_neg h3] at h ⊢
            cases postOk with
            | false => simp at h
            | true => simp

/-- Witness for C10 at a concrete successful submission: the stored
timestamp changes (0 to 99), and the theorem's conclusion holds there. -/
theorem stored_timestamp_only_on_success_witness :
    (submitContact (some ⟨"p1", "Cozy PG"⟩)
        ⟨"A", "a@b.c", "9876543210", "", ""⟩ 0 70000 99 true
        "f").requestSent = true ∧
      (true : Bool) = true ∧
      (submitContact (some ⟨"p1", "Cozy PG"⟩)
          ⟨"A", "a@b.c", "9876543210", "", ""⟩ 0 70000 99 true
          "f").contactSuccess =
        "Thanks for showing the interest, we will reach out to you soon." :=
  stored_timestamp_only_on_success (some ⟨"p1", "Cozy PG"⟩)
    ⟨"A", "a@b.c", "9876543210", "", ""⟩ 0 70000 99 true "f" (by decide)

/-! ## C5: admin image staging (`handleImageSelect`) -/

/-- A selected browser file: its MIME type (`file.type`) and size in bytes. -/
structure JFile where
  mimeType : String
  size : Nat
deriving DecidableEq

/-- An entry of the staged set: the selected file together with the
locally-generated preview reference the handler attaches to it
(`preview: URL.createObjectURL(file)`). Object URLs are opaque fresh
handles; they are modelled as the successive values of an allocation
counter, which captures what the source relies on: every appended entry
carries its own preview reference. (The `Math.random()` DOM key `id` of an
entry is not referenced by the claim and is not modelled.) -/
structure StagedImage where
  file : JFile
  preview : Nat
deriving DecidableEq

/-- The staged-image state touched by `handleImageSelect`: the staged list
and the `imageError` message (empty = no error). -/
structure StagedState where
  staged : List StagedImage
  imageError : String
deriving DecidableEq

/-- A file passes the per-file validation: image MIME type and ≤ 10 MB. -/
def fileOk (f : JFile) : Bool :=
  jsStartsWith f.mimeType "image/" && decide (f.size ≤ 10 * 1024 * 1024)

/-- The per-file validation loop of `handleImageSelect`: returns the message
of the first violating file in selection order (type checked before size for
each file), or `none` when all files are valid. -/
def scanFiles : List JFile → Option String
  | [] => none
  | f :: rest =>
    if jsStartsWith f.mimeType "image/" = false then
      some "Only image files are allowed"
    else if f.size > 10 * 1024 * 1024 then
      some "Image size must be less than 10MB"
    else scanFiles rest

/-- `validFiles.map(file => ({ file, preview: URL.createObjectURL(file) }))`:
pair each validated file with a fresh preview reference drawn from the
allocation counter `h`. -/
def attachPreviews (h : Nat) : List JFile → List StagedImage
  | [] => []
  | f :: rest => ⟨f, h⟩ :: attachPreviews (h + 1) rest

/-- `handleImageSelect` (AdminListings variant; AdminNewListing is the same
with `existingCount = 0`): reject the whole batch when the total count
exceeds 10, else when some file fails validation; otherwise append every
selected file to the staged set, each paired with a freshly created preview
reference (`nextHandle` is the allocator state). -/
def handleImageSelect (existingCount : Nat) (staged : List StagedImage)
    (files : List JFile) (nextHandle : Nat) : StagedState :=
  if files.length + existingCount + staged.length > 10 then
    ⟨staged, "Maximum 10 images allowed"⟩
  else
    match scanFiles files with
    | some msg => ⟨staged, msg⟩
    | none => ⟨staged ++ attachPreviews nextHandle files, ""⟩

theorem attachPreviews_map_file (h : Nat) (files : List JFile) :
    (attachPreviews h files).map (·.file) = files := by
  induction files generalizing h with
  | nil => rfl
  | cons f rest ih => simp [attachPreviews, ih]

theorem scanFiles_eq_none {files : List JFile} :
    scanFiles files = none ↔ ∀ f ∈ files, fileOk f = true := by
  induction files with
  | nil => simp [scanFiles]
  | cons a rest ih =>
    cases h1 : jsStartsWith a.mimeType "image/" with
    | false => simp [scanFiles, h1, fileOk]
    | true =>
      by_cases h2 : a.size > 10 * 1024 * 1024
      · simp [scanFiles, h1, h2, fileOk]
      · simp [scanFiles, h1, h2, fileOk, ih]
        intro _
        omega

theorem find?_cons_eq (p : JFile → Bool) (a : JFile) (l : List JFile) :
    List.find? p (a :: l) = if p a then some a else List.find? p l := by
  by_cases h : p a = true
  · rw [List.find?_cons_of_pos _ h, if_pos h]
  · rw [List.find?_cons_of_neg _ h, if_neg h]

theorem scanFiles_eq_find {files : List JFile} {f : JFile}
    (h : List.find? (fun g => !(fileOk g)) files = some f) :
    scanFiles files =
      some (if jsStartsWith f.mimeType "image/" then
              "Image size must be less than 10MB"
            else "Only image files are allowed") := by
  induction files with
  | nil => simp [List.find?] at h
  | cons a rest ih =>
    rw [find?_cons_eq] at h
    cases hpa : (!(fileOk a)) with
    | true =>
      rw [hpa, if_pos rfl] at h
      injection h with h
      subst h
      simp only [Bool.not_eq_true'] at hpa
      unfold fileOk at hpa
      cases h1 : jsStartsWith a.mimeType "image/" with
      | false => simp [scanFiles, h1]
      | true =>
        rw [h1] at hpa
        simp only [Bool.true_and, decide_eq_false_iff_not, Nat.not_le] at hpa
        simp [scanFiles, h1, hpa]
    | false =>
      rw [hpa] at h
      simp only [if_neg Bool.false_ne_true] at h
      simp only [Bool.not_eq_false'] at hpa
      unfold fileOk at hpa
      simp only [Bool.and_eq_true, decide_eq_true_iff] at hpa
      simp [scanFiles, hpa.1, Nat.not_lt.mpr hpa.2, ih h]

/-- C5 counterexample: a batch whose first file is an oversized image and
whose second file has a non-image MIME type is rejected with the
size-specific message, although the claim's type clause (some selected file
has a non-image MIME type) demands the type-specific message. The staged set
is unchanged either way. -/
theorem image_select_mixed_violation_message :
    (∃ f ∈ [JFile.mk "image/png" (10 * 1024 * 1024 + 1),
            JFile.mk "text/plain" 4],
        jsStartsWith f.mimeType "image/" = false) ∧
      handleImageSelect 0 []
          [JFile.mk "image/png" (10 * 1024 * 1024 + 1),
           JFile.mk "text/plain" 4] 0 =
        ⟨[], "Image size must be less than 10MB"⟩ := by decide

/-- C5 (amended): if the selected files would push the total image count
(existing + staged + selected) over 10 the batch is rejected with the
count message and the staged set is unchanged; otherwise, if some selected
file violates validation the batch is rejected with the staged set unchanged
and the message identifying the violated constraint of the FIRST violating
file in selection order (type checked before size per file); otherwise every
selected file is appended to the staged set, each with its own freshly
created preview reference (the appended entries project back to exactly the
selected files). -/
theorem handleImageSelect_batch_validation (existingCount : Nat)
    (staged : List StagedImage) (files : List JFile) (nextHandle : Nat) :
    (files.length + existingCount + staged.length > 10 →
      handleImageSelect existingCount staged files nextHandle =
        ⟨staged, "Maximum 10 images allowed"⟩) ∧
    (files.length + existingCount + staged.length ≤ 10 →
      ((∀ f ∈ files, fileOk f = true) →
        handleImageSelect existingCount staged files nextHandle =
            ⟨staged ++ attachPreviews nextHandle files, ""⟩ ∧
          (attachPreviews nextHandle files).map (·.file) = files) ∧
      (∀ f : JFile, List.find? (fun g => !(fileOk g)) files = some f →
        handleImageSelect existingCount staged files nextHandle =
          ⟨staged,
            if jsStartsWith f.mimeType "image/" then
              "Image size must be less than 10MB"
            else "Only image files are allowed"⟩)) := by
  constructor
  · intro h
    unfold handleImageSelect
    rw [if_pos h]
  · intro h
    constructor
    · intro hall
      constructor
      · unfold handleImageSelect
        rw [if_neg (by omega), scanFiles_eq_none.mpr hall]
      · exact attachPreviews_map_file nextHandle files
    · intro f hf
      unfold handleImageSelect
      rw [if_neg (by omega), scanFiles_eq_find hf]

/-- Witness for C5 (amended), count branch: 4 selected + 5 existing + 3
staged = 12 > 10 is rejected with the count message, staged set unchanged. -/
theorem handleImageSelect_batch_validation_witness :
    handleImageSelect 5
        (List.replicate 3 (StagedImage.mk (JFile.mk "image/png" 5) 0))
        (List.replicate 4 (JFile.mk "image/png" 5)) 3 =
      ⟨List.replicate 3 (StagedImage.mk (JFile.mk "image/png" 5) 0),
        "Maximum 10 images allowed"⟩ :=
  (handleImageSelect_batch_validation 5
      (List.replicate 3 (StagedImage.mk (JFile.mk "image/png" 5) 0))
      (List.replicate 4 (JFile.mk "image/png" 5)) 3).1 (by decide)

/-! ## C6: create/update submit flows and the separate image upload -/

/-- The HTTP mutation requests the admin submit/update flows can issue. -/
inductive Req
  | createPost
  | imagesUpload
  | attachPut
  | updatePut
  | deleteReq
deriving DecidableEq

/-- Outcome of the `AdminNewListing.submit` flow. -/
structure CreateOutcome where
  reqs : List Req
  persisted : Bool
  error : String
  success : String
deriving DecidableEq

/-- The success message `submit` sets
(`Listing created with ID: ...` plus an image count when images uploaded). -/
def createdMsg (id : String) (uploadedCount : Nat) : String :=
  "Listing created with ID: " ++ id ++
    (if uploadedCount > 0 then
      " and " ++ toString uploadedCount ++ " images uploaded"
    else "")

theorem createdMsg_ne_empty (id : String) (n : Nat) : createdMsg id n ≠ "" := by
  unfold createdMsg
  intro hcontra
  have hlen := congrArg String.length hcontra
  simp only [String.length_append] at hlen
  have h25 : ("Listing created with ID: ").length = 25 := rfl
  have hz : ("" : String).length = 0 := rfl
  omega

def partialCreateMsg : String :=
  "Property created but image upload failed. You can add images later by editing the property."

def partialUpdateMsg : String :=
  "Property updated but image upload failed. You can try uploading images again."

/-- `AdminNewListing.submit`: POST the payload; if that succeeds and images
are staged, try the multipart upload then the image-attach PUT; their failure
is caught by the inner `catch`, which only sets the partial message — the
flow continues to the success message and never issues a delete. -/
def adminSubmit (id : String) (stagedCount uploadedCount : Nat)
    (createOk uploadOk attachOk : Bool) (createFailMsg : String) :
    CreateOutcome :=
  if createOk then
    if stagedCount > 0 then
      if uploadOk then
        if attachOk then
          ⟨[.createPost, .imagesUpload, .attachPut], true, "",
            createdMsg id uploadedCount⟩
        else
          ⟨[.createPost, .imagesUpload, .attachPut], true, partialCreateMsg,
            createdMsg id uploadedCount⟩
      else ⟨[.createPost, .imagesUpload], true, partialCreateMsg,
        createdMsg id 0⟩
    else ⟨[.createPost], true, "", createdMsg id 0⟩
  else ⟨[.createPost], false, createFailMsg, ""⟩

/-- Outcome of the `AdminListings.updateListing` flow. -/
structure UpdateOutcome where
  reqs : List Req
  updated : Bool
  error : String
deriving DecidableEq

/-- `AdminListings.updateListing`: if new images are staged, try the upload
first — its failure is caught, sets the partial message, and the flow
continues; the PUT is issued regardless, and on its success the already-set
partial message is left standing (the outer `catch` overwrites it only when
the PUT itself fails). No delete or compensating request exists. -/
def adminUpdate (stagedCount : Nat) (uploadOk putOk : Bool)
    (putFailMsg : String) : UpdateOutcome :=
  let upReqs : List Req := if stagedCount > 0 then [.imagesUpload] else []
  let upErr : String :=
    if stagedCount > 0 then (if uploadOk then "" else partialUpdateMsg)
    else ""
  if putOk then ⟨upReqs ++ [.updatePut], true, upErr⟩
  else ⟨upReqs ++ [.updatePut], false, putFailMsg⟩

/-- C6: when the record-persisting request succeeds and the separate image
upload fails, the persisted record is kept (no delete request is ever part
of either flow) and the failure is reported with the dedicated
partial-success message — for create, alongside a non-empty success
message rather than as a total failure; for update, the record update
still goes through. -/
theorem partial_image_failure_no_rollback (id : String)
    (stagedCount uploadedCount : Nat) (attachOk : Bool)
    (createFailMsg putFailMsg : String) (h : 0 < stagedCount) :
    adminSubmit id stagedCount uploadedCount true false attachOk
        createFailMsg =
      ⟨[.createPost, .imagesUpload], true, partialCreateMsg,
        createdMsg id 0⟩ ∧
    (adminSubmit id stagedCount uploadedCount true false attachOk
        createFailMsg).success ≠ "" ∧
    adminUpdate stagedCount false true putFailMsg =
      ⟨[.imagesUpload, .updatePut], true, partialUpdateMsg⟩ ∧
    Req.deleteReq ∉ (adminSubmit id stagedCount uploadedCount true false
        attachOk createFailMsg).reqs ∧
    Req.deleteReq ∉ (adminUpdate stagedCount false true putFailMsg).reqs := by
  have hs : adminSubmit id stagedCount uploadedCount true false attachOk
      createFailMsg =
      ⟨[.createPost, .imagesUpload], true, partialCreateMsg,
        createdMsg id 0⟩ := by
    unfold adminSubmit
    rw [if_pos rfl, if_pos h]
    rfl
  have hu : adminUpdate stagedCount false true putFailMsg =
      ⟨[.imagesUpload, .updatePut], true, partialUpdateMsg⟩ := by
    unfold adminUpdate
    simp [h]
  refine ⟨hs, ?_, hu, ?_, ?_⟩
  · rw [hs]
    exact createdMsg_ne_empty id 0
  · rw [hs]
    simp
  · rw [hu]
    simp

/-- Witness for C6 at one staged image. -/
theorem partial_image_failure_no_rollback_witness :
    adminSubmit "id7" 1 0 true false true "cfail" =
      ⟨[.createPost, .imagesUpload], true, partialCreateMsg,
        createdMsg "id7" 0⟩ ∧
    (adminSubmit "id7" 1 0 true false true "cfail").success ≠ "" ∧
    adminUpdate 1 false true "ufail" =
      ⟨[.imagesUpload, .updatePut], true, partialUpdateMsg⟩ ∧
    Req.deleteReq ∉ (adminSubmit "id7" 1 0 true false true "cfail").reqs ∧
    Req.deleteReq ∉ (adminUpdate 1 false true "ufail").reqs :=
  partial_image_failure_no_rollback "id7" 1 0 true "cfail" "ufail" (by decide)

/-! ## C8: filter-option catalogs (catalog-building effect in `Listings`) -/

/-- The catalog regex `/^\s*nearby\s*:/i`: optional leading whitespace,
`nearby` case-insensitively, optional whitespace, then a colon. -/
def isNearbyTag (f : String) : Bool :=
  let r := f.data.dropWhile jsWs
  ((r.take 6).map Char.toLower == "nearby".data) &&
    (match (r.drop 6).dropWhile jsWs with
     | ':' :: _ => true
     | _ => false)

/-- The catalog regex `/^\s*(nearby|location)\s*:/i` used to exclude
reserved tags from the feature catalog. -/
def isReservedTag (f : String) : Bool :=
  let r := f.data.dropWhile jsWs
  (((r.take 6).map Char.toLower == "nearby".data) &&
    (match (r.drop 6).dropWhile jsWs with
     | ':' :: _ => true
     | _ => false)) ||
  (((r.take 8).map Char.toLower == "location".data) &&
    (match (r.drop 8).dropWhile jsWs with
     | ':' :: _ => true
     | _ => false))

/-- All feature tags of the dataset (`arr.flatMap(it => it.features)`). -/
def featuresRaw (arr : List Property) : List String :=
  (arr.map (·.features)).flatten

/-- `typeOptions`: distinct non-empty `property_type` values, sorted. -/
def buildTypeOptions (arr : List Property) : List String :=
  jsSetSort ((arr.map (·.property_type)).filter (fun s => s ≠ ""))

/-- `nearbyOptions`: for each `Nearby:`-tagged feature, the part after the
first colon, trimmed; distinct non-empty values, sorted. -/
def buildNearbyOptions (arr : List Property) : List String :=
  jsSetSort
    ((((featuresRaw arr).filter isNearbyTag).map
        (fun f => jsTrim ⟨afterFirstColon f.data⟩)).filter (fun s => s ≠ ""))

/-- `locationOptions`: distinct non-empty `address.city` values, sorted. -/
def buildLocationOptions (arr : List Property) : List String :=
  jsSetSort ((arr.map (·.address.city)).filter (fun s => s ≠ ""))

/-- `featureOptions` (restriction catalog): non-reserved feature tags,
trimmed; distinct non-empty values, sorted. -/
def buildFeatureOptions (arr : List Property) : List String :=
  jsSetSort
    ((((featuresRaw arr).filter (fun f => !(isReservedTag f))).map
        jsTrim).filter (fun s => s ≠ ""))

/-- The four filter-option catalogs of the `Listings` component. -/
structure Catalogs where
  locationOptions : List String
  nearbyOptions : List String
  typeOptions : List String
  featureOptions : List String
deriving DecidableEq

/-- The state of the `Listings` component relevant to catalogs and filters. -/
structure ListingsState where
  listings : List Property
  catalogs : Catalogs
  filters : Filters
deriving DecidableEq

/-- Events acting on that state: the mount-time catalog fetch resolving with
the full unfiltered dataset; the listings (re)fetch resolving (triggered on
every filter change); and each filter mutation from the UI. -/
inductive LEvent
  | catalogFetchOk (dataset : List Property)
  | listingsFetched (result : List Property)
  | setLocation (v : String)
  | setNearby (v : String)
  | setPriceRange (v : String)
  | setRoomType (v : String)
  | setRestrictions (v : String)
  | clearFilters

/-- State transition of the `Listings` component: only the mount-time
catalog effect (empty dependency array) writes the four catalogs, and it
computes them from the full dataset it fetched; filter changes touch only
`filters`, and the filter-triggered refetch touches only `listings`. -/
def lstep (s : ListingsState) : LEvent → ListingsState
  | .catalogFetchOk ds =>
    { s with
      catalogs :=
        ⟨buildLocationOptions ds, buildNearbyOptions ds, buildTypeOptions ds,
          buildFeatureOptions ds⟩ }
  | .listingsFetched r => { s with listings := r }
  | .setLocation v => { s with filters := { s.filters with location := v } }
  | .setNearby v => { s with filters := { s.filters with nearby := v } }
  | .setPriceRange v => { s with filters := { s.filters with priceRange := v } }
  | .setRoomType v => { s with filters := { s.filters with roomType := v } }
  | .setRestrictions v =>
    { s with filters := { s.filters with restrictions := v } }
  | .clearFilters => { s with filters := ⟨"", "", "", "", ""⟩ }

/-- C8: the four option catalogs are computed from the full unfiltered
dataset delivered by the mount-time fetch (independently of the filter state
at that moment), and every filter mutation, filter reset, and
filter-triggered listings refetch leaves all four catalogs unchanged. -/
theorem catalogs_from_full_dataset_invariant :
    (∀ (s : ListingsState) (ds : List Property),
      (lstep s (.catalogFetchOk ds)).catalogs =
        ⟨buildLocationOptions ds, buildNearbyOptions ds, buildTypeOptions ds,
          buildFeatureOptions ds⟩) ∧
    (∀ (s : ListingsState) (v : String),
      (lstep s (.setLocation v)).catalogs = s.catalogs) ∧
    (∀ (s : ListingsState) (v : String),
      (lstep s (.setNearby v)).catalogs = s.catalogs) ∧
    (∀ (s : ListingsState) (v : String),
      (lstep s (.setPriceRange v)).catalogs = s.catalogs) ∧
    (∀ (s : ListingsState) (v : String),
      (lstep s (.setRoomType v)).catalogs = s.catalogs) ∧
    (∀ (s : ListingsState) (v : String),
      (lstep s (.setRestrictions v)).catalogs = s.catalogs) ∧
    (∀ s : ListingsState, (lstep s .clearFilters).catalogs = s.catalogs) ∧
    (∀ (s : ListingsState) (r : List Property),
      (lstep s (.listingsFetched r)).catalogs = s.catalogs) :=
  ⟨fun _ _ => rfl, fun _ _ => rfl, fun _ _ => rfl, fun _ _ => rfl,
    fun _ _ => rfl, fun _ _ => rfl, fun _ => rfl, fun _ _ => rfl⟩
